import Mathlib

set_option maxRecDepth 8192

/-
Shallow embedding of src/HelloWorld/main/HelloWorld.c, an ESP32 firmware
driving three PWM LEDs through breathing patterns.  Loop constructs from the
C source are translated to structurally recursive Lean functions on an
explicit fuel parameter; the fuel arguments at the call sites are strict
upper bounds on the number of iterations the corresponding C loop performs,
so the fuel is never exhausted and the Lean function traces exactly the
iterations of the C loop.  Machine `int` values that can go negative (the
duty variable of the falling loop in led_breathe) are modelled as `Int`;
loop counters that stay non-negative are modelled as `Nat`.
-/

/-- One LED descriptor: GPIO pin number and LEDC channel, as in the C
struct led_t.  The C file uses GPIO 2/4/5 and channels 0/1/2. -/
structure led_t where
  gpio : Nat
  channel : Nat
deriving DecidableEq, Repr

/-- The led list from the C file: \x7b LED1_GPIO, LED1_CH \x7d etc. -/
def leds : List led_t := [⟨2, 0⟩, ⟨4, 1⟩, ⟨5, 2⟩]

/-- LED_COUNT = sizeof(leds)/sizeof(leds[0]) = 3. -/
def LED_COUNT : Nat := leds.length

/-- Channel of the LED at a given index, as read by leds[led_index].channel. -/
def channelOf (led_index : Nat) : Nat := (leds.getD led_index ⟨0, 0⟩).channel

/-- The LEDC hardware duty registers: each channel has a shadow (pending)
duty written by ledc_set_duty and a committed duty latched by
ledc_update_duty. -/
structure PwmState where
  pending : Nat → Int
  committed : Nat → Int

/-- ledc_set_duty(mode, channel, duty): writes the shadow duty register. -/
def ledc_set_duty (s : PwmState) (ch : Nat) (duty : Int) : PwmState :=
  { s with pending := Function.update s.pending ch duty }

/-- ledc_update_duty(mode, channel): commits the shadow duty register. -/
def ledc_update_duty (s : PwmState) (ch : Nat) : PwmState :=
  { s with committed := Function.update s.committed ch (s.pending ch) }

/-- led_set_brightness(led_index, duty): set then update the duty on the
channel of leds[led_index]. -/
def led_set_brightness (s : PwmState) (led_index : Nat) (duty : Int) : PwmState :=
  ledc_update_duty (ledc_set_duty s (channelOf led_index) duty) (channelOf led_index)

/-- The duties written by the rising loop of led_breathe:
for (int duty = 0; duty <= 1023; duty += 10).  Fuel-recursive transcription
of the loop; the condition bounds the iteration count by 104 so fuel 1024
is never exhausted. -/
def riseLoop (duty : Int) (fuel : Nat) : List Int :=
  match fuel with
  | 0 => []
  | f + 1 => if duty ≤ 1023 then duty :: riseLoop (duty + 10) f else []

/-- The duties written by the falling loop of led_breathe:
for (int duty = 1023; duty >= 0; duty -= 10). -/
def fallLoop (duty : Int) (fuel : Nat) : List Int :=
  match fuel with
  | 0 => []
  | f + 1 => if 0 ≤ duty then duty :: fallLoop (duty - 10) f else []

/-- Duty sequence of the rising phase of led_breathe. -/
def riseDuties : List Int := riseLoop 0 1024

/-- Duty sequence of the falling phase of led_breathe. -/
def fallDuties : List Int := fallLoop 1023 1024

/-- The full duty sequence one call of led_breathe writes. -/
def breatheDuties : List Int := riseDuties ++ fallDuties

/-- led_breathe(led_index) as its trace of led_set_brightness calls:
the pairs (led_index, duty) in the order the C code performs them. -/
def led_breathe (led_index : Nat) : List (Nat × Int) :=
  breatheDuties.map (fun duty => (led_index, duty))

/-- An observable action of a pattern generator: a call to led_breathe or a
direct call to led_set_brightness. -/
inductive PatAction where
  | breathe (led_index : Nat)
  | setBright (led_index : Nat) (duty : Int)
deriving DecidableEq, Repr

/-- Ascending loop of pattern_knight_rider:
for (int i = 0; i < LED_COUNT; i++) led_breathe(i). -/
def kr_up (i : Nat) (fuel : Nat) : List PatAction :=
  match fuel with
  | 0 => []
  | f + 1 => if i < LED_COUNT then PatAction.breathe i :: kr_up (i + 1) f else []

/-- Descending loop of pattern_knight_rider:
for (int i = LED_COUNT - 2; i > 0; i--) led_breathe(i). -/
def kr_down (i : Nat) (fuel : Nat) : List PatAction :=
  match fuel with
  | 0 => []
  | f + 1 => if 0 < i then PatAction.breathe i :: kr_down (i - 1) f else []

/-- pattern_knight_rider(): ascending sweep then descending sweep. -/
def pattern_knight_rider : List PatAction :=
  kr_up 0 8 ++ kr_down (LED_COUNT - 2) 8

/-- Inner loop of pattern_binary_counter for one value of count:
for each i < LED_COUNT, bit = (count >> i) & 1; breathe if bit else zero. -/
def bc_inner (count : Nat) (i : Nat) (fuel : Nat) : List PatAction :=
  match fuel with
  | 0 => []
  | f + 1 =>
    if i < LED_COUNT then
      (if (count >>> i) &&& 1 ≠ 0 then PatAction.breathe i
       else PatAction.setBright i 0) :: bc_inner count (i + 1) f
    else []

/-- Outer loop of pattern_binary_counter:
for (int count = 0; count < max_count; count++). -/
def bc_outer (count : Nat) (max_count : Nat) (fuel : Nat) : List PatAction :=
  match fuel with
  | 0 => []
  | f + 1 =>
    if count < max_count then bc_inner count 0 8 ++ bc_outer (count + 1) max_count f
    else []

/-- pattern_binary_counter() with max_count = 1 << LED_COUNT. -/
def pattern_binary_counter : List PatAction :=
  bc_outer 0 (1 <<< LED_COUNT) 16

/-- Loop of pattern_random(): 6 iterations, each drawing rand() from the
process-wide generator (modelled as an explicit state-passing function,
since rand/srand live in libc, outside this repository) and breathing
LED rand() % LED_COUNT. -/
def pr_loop {σ : Type} (rand : σ → Nat × σ) (st : σ) (i : Nat) (fuel : Nat) :
    List PatAction :=
  match fuel with
  | 0 => []
  | f + 1 =>
    if i < 6 then
      PatAction.breathe ((rand st).1 % LED_COUNT) :: pr_loop rand (rand st).2 (i + 1) f
    else []

/-- pattern_random() given the generator function and its current state. -/
def pattern_random {σ : Type} (rand : σ → Nat × σ) (st : σ) : List PatAction :=
  pr_loop rand st 0 8

/-- One iteration of the while(1) body of led_pattern_task: knight rider,
then binary counter, then random, in that order. -/
def led_pattern_cycle {σ : Type} (rand : σ → Nat × σ) (st : σ) : List PatAction :=
  pattern_knight_rider ++ pattern_binary_counter ++ pattern_random rand st

/-- Counts the led_breathe calls in an action list. -/
def countB (l : List PatAction) : Nat :=
  l.countP (fun a => match a with | PatAction.breathe _ => true | _ => false)

/-- Expands an action into the led_set_brightness writes it performs:
led_breathe produces its full write trace, a direct brightness call is a
single write. -/
def actionWrites : PatAction → List (Nat × Int)
  | PatAction.breathe i => led_breathe i
  | PatAction.setBright i d => [(i, d)]

/-- All (led_index, duty) writes of one full cycle of led_pattern_task. -/
def cycleWrites {σ : Type} (rand : σ → Nat × σ) (st : σ) : List (Nat × Int) :=
  (led_pattern_cycle rand st).flatMap actionWrites

/-- A sample deterministic generator state step, standing in for the libc
rand() stream in concrete instantiations. -/
def wRand : Nat → Nat × Nat := fun s => (s * 7 + 5, s + 1)

/-- Hardware responses to the configuration calls of led_init: whether
ledc_timer_config accepts the timer configuration, and whether
ledc_channel_config accepts the configuration of the channel for the LED
at each index.  These are the only fallible calls the C file makes. -/
structure HwResp where
  timer_ok : Bool
  channel_ok : Nat → Bool

/-- Effect of a successful ledc_channel_config for leds[i]: the channel is
bound with .duty = 0 (shadow and committed output both at zero). -/
def configure_channel (s : PwmState) (i : Nat) : PwmState :=
  { pending := Function.update s.pending (channelOf i) 0,
    committed := Function.update s.committed (channelOf i) 0 }

/-- The channel-configuration loop of led_init with its ESP_ERROR_CHECK:
none models the abort() that ESP_ERROR_CHECK performs on a non-OK status. -/
def init_channels (hw : HwResp) (s : PwmState) (i : Nat) (fuel : Nat) :
    Option PwmState :=
  match fuel with
  | 0 => some s
  | f + 1 =>
    if i < LED_COUNT then
      if hw.channel_ok i then init_channels hw (configure_channel s i) (i + 1) f
      else none
    else some s

/-- led_init(): ESP_ERROR_CHECK on the timer configuration, then the channel
loop.  Returns none when ESP_ERROR_CHECK aborts the process. -/
def led_init (hw : HwResp) (s : PwmState) : Option PwmState :=
  if hw.timer_ok then init_channels hw s 0 8 else none

/-- Spec-shaped restatement of the binary counter pattern, written from the
spec sentence: for count from 0 to 2^N - 1 inclusive, for each LED index i
in ascending order, breathe(i) when bit i of count is set, else zero the
brightness.  Compared against pattern_binary_counter, which is transcribed
from the C loops. -/
def binary_counter_spec : List PatAction :=
  (List.range (2 ^ LED_COUNT)).flatMap (fun count =>
    (List.range LED_COUNT).map (fun i =>
      if (count >>> i) &&& 1 ≠ 0 then PatAction.breathe i
      else PatAction.setBright i 0))

/-- A pattern action is well-formed when its LED index is a valid position
in the led list and a direct brightness write carries duty 0 (the only duty
the patterns pass to led_set_brightness directly). -/
def actOk : PatAction → Bool
  | PatAction.breathe i => decide (i < LED_COUNT)
  | PatAction.setBright i d => decide (i < LED_COUNT) && decide (d = 0)

/-- An all-zero PWM register file, used as a concrete starting state. -/
def pwm0 : PwmState := ⟨fun _ => 0, fun _ => 0⟩

/-- Hardware responses accepting every configuration call. -/
def hwAllOk : HwResp := ⟨true, fun _ => true⟩

/-- The register file led_init produces when every call succeeds. -/
def pwmInit : PwmState :=
  configure_channel (configure_channel (configure_channel pwm0 0) 1) 2

/-- The write trace of led_breathe carries exactly the breathe duty
sequence in its second components. -/
theorem led_breathe_map_snd (i : Nat) : (led_breathe i).map Prod.snd = breatheDuties := by
  simp [led_breathe, List.map_map]

/-- Claim C1 counterexample: the duty value last written by led_breathe(0)
is 3, not 0, because the falling loop for (duty = 1023; duty >= 0;
duty -= 10) leaves the loop after writing 3 (the next value, -7, fails the
condition; 1023 is not a multiple of the step 10). -/
theorem C1_breathe_final_duty_cex :
    ((led_breathe 0).map Prod.snd).getLast? = some 3 ∧
    ((led_breathe 0).map Prod.snd).getLast? ≠ some 0 := by
  constructor
  · rw [led_breathe_map_snd]
    decide
  · rw [led_breathe_map_snd]
    decide

/-- Claim C1 amended: for every LED index, after led_breathe(i) completes,
the duty value last written for LED i is 3 (not 0), independent of any
earlier duty. -/
theorem C1_breathe_final_duty :
    ∀ i : Nat, ((led_breathe i).map Prod.snd).getLast? = some 3 := by
  intro i
  rw [led_breathe_map_snd]
  decide

/-- Claim C2: for every LED index, led_breathe writes the fixed duty
sequence breatheDuties, which splits into a non-decreasing prefix followed
by a non-increasing suffix, whose maximum element is 1023 (the 10-bit
max_duty), and the total number of writes is the constant 206 on every
invocation. -/
theorem C2_breathe_shape :
    ∀ i : Nat,
      (led_breathe i).map Prod.snd = breatheDuties ∧
      (led_breathe i).length = 206 ∧
      breatheDuties = breatheDuties.take 104 ++ breatheDuties.drop 104 ∧
      List.Pairwise (fun a b : Int => a ≤ b) (breatheDuties.take 104) ∧
      List.Pairwise (fun a b : Int => b ≤ a) (breatheDuties.drop 104) ∧
      breatheDuties.maximum = some 1023 := by
  intro i
  refine ⟨led_breathe_map_snd i, ?_, (List.take_append_drop 104 breatheDuties).symm,
    ?_, ?_, ?_⟩
  · simp [led_breathe]
    decide
  · decide
  · decide
  · decide

/-- Claim C3 counterexample: the last duty value written by the rising loop
of led_breathe is 1020, not 1023: the loop for (duty = 0; duty <= 1023;
duty += 10) exits after writing 1020, since 1030 fails the condition. -/
theorem C3_rise_last_cex :
    riseDuties.getLast? = some 1020 ∧ riseDuties.getLast? ≠ some 1023 := by
  decide

/-- Claim C3 amended: the rising phase of led_breathe writes exactly the
arithmetic progression 0, 10, ..., 1020 (fixed increments of 10 starting at
0), so its last written value is 1020; the value 1023 is first written by
the falling phase. -/
theorem C3_rise_shape :
    riseDuties = (List.range 103).map (fun k => (10 : Int) * k) ∧
    riseDuties.getLast? = some 1020 ∧
    fallDuties.head? = some 1023 := by
  decide

/-- Claim C4: with LED_COUNT = 3, one invocation of pattern_knight_rider
calls led_breathe on exactly the index sequence 0, 1, 2, 1: ascending over
all indices, then descending from LED_COUNT - 2 down to 1. -/
theorem C4_knight_rider_order :
    LED_COUNT = 3 ∧
    pattern_knight_rider =
      [PatAction.breathe 0, PatAction.breathe 1, PatAction.breathe 2,
       PatAction.breathe 1] := by
  decide

/-- The random pattern always makes exactly 6 breathe calls, whatever the
generator produces. -/
theorem countB_random {σ : Type} (rand : σ → Nat × σ) (st : σ) :
    countB (pattern_random rand st) = 6 := by
  simp [pattern_random, pr_loop, countB, List.countP_cons]

/-- The random pattern's action list has length 6. -/
theorem length_random {σ : Type} (rand : σ → Nat × σ) (st : σ) :
    (pattern_random rand st).length = 6 := by
  simp [pattern_random, pr_loop]

/-- Every action of the random pattern is a breathe of an index below
LED_COUNT, whatever the generator produces. -/
theorem mem_random {σ : Type} (rand : σ → Nat × σ) (st : σ) :
    ∀ a ∈ pattern_random rand st, ∃ k, k < LED_COUNT ∧ a = PatAction.breathe k := by
  intro a ha
  simp only [pattern_random, pr_loop, List.mem_cons] at ha
  norm_num at ha
  rcases ha with h | h | h | h | h | h <;>
    exact ⟨_, Nat.mod_lt _ (by decide), h⟩

/-- Claim C5: pattern_binary_counter performs, for count = 0 to 2^3 - 1
inclusive and for each LED index in ascending order, a breathe when bit i of
count is set and a zero-brightness write otherwise; in particular the pass
for count = 5 breathes LEDs 0 and 2 and zeroes LED 1. -/
theorem C5_binary_counter :
    pattern_binary_counter = binary_counter_spec ∧
    bc_inner 5 0 8 =
      [PatAction.breathe 0, PatAction.setBright 1 0, PatAction.breathe 2] := by
  decide

/-- Claim C6: one cycle of led_pattern_task runs the knight-rider chase,
then the binary counter, then the random pattern, in that fixed order, and
makes exactly 4, 12 (the sum of the popcounts of 0..7) and 6 breathe calls
in the three patterns respectively, 22 in total, for every generator
state. -/
theorem C6_cycle_order_and_counts :
    ∀ (σ : Type) (rand : σ → Nat × σ) (st : σ),
      led_pattern_cycle rand st
        = pattern_knight_rider ++ pattern_binary_counter ++ pattern_random rand st ∧
      countB pattern_knight_rider = 4 ∧
      countB pattern_binary_counter = 12 ∧
      ((List.range 8).map (fun c =>
          ((List.range 3).filter (fun i => (c >>> i) &&& 1 == 1)).length)).sum = 12 ∧
      countB (pattern_random rand st) = 6 ∧
      countB (led_pattern_cycle rand st) = 22 := by
  intro σ rand st
  have hkr : countB pattern_knight_rider = 4 := by decide
  have hbc : countB pattern_binary_counter = 12 := by decide
  have hr := countB_random rand st
  refine ⟨rfl, hkr, hbc, by decide, hr, ?_⟩
  have hsplit : countB (led_pattern_cycle rand st)
      = countB pattern_knight_rider + countB pattern_binary_counter
        + countB (pattern_random rand st) := by
    simp [led_pattern_cycle, countB, List.countP_append, Nat.add_assoc]
  rw [hsplit, hkr, hbc, hr]

/-- Claim C7: pattern_random performs exactly 6 iterations, every chosen
index lies below LED_COUNT, and two runs from equal generator states (the
same seed) produce the same action sequence. -/
theorem C7_random_shape :
    ∀ (σ : Type) (rand : σ → Nat × σ) (st1 st2 : σ), st1 = st2 →
      (pattern_random rand st1).length = 6 ∧
      (∀ a ∈ pattern_random rand st1, ∃ k, k < LED_COUNT ∧ a = PatAction.breathe k) ∧
      pattern_random rand st1 = pattern_random rand st2 := by
  intro σ rand st1 st2 h
  subst h
  exact ⟨length_random rand st1, mem_random rand st1, rfl⟩

/-- Witness for C7 at a concrete generator and seed. -/
theorem C7_random_shape_witness :
    (0 : Nat) = 0 ∧
    ((pattern_random wRand 0).length = 6 ∧
     (∀ a ∈ pattern_random wRand 0, ∃ k, k < LED_COUNT ∧ a = PatAction.breathe k) ∧
     pattern_random wRand 0 = pattern_random wRand 0) :=
  ⟨rfl, C7_random_shape Nat wRand 0 0 rfl⟩

/-- Every duty in the breathe sequence lies in the 10-bit range. -/
theorem breathe_duty_bounds : ∀ d ∈ breatheDuties, 0 ≤ d ∧ d ≤ 1023 := by
  decide

/-- Every action of one scheduler cycle is well-formed: its LED index is
below LED_COUNT, and direct brightness writes carry duty 0. -/
theorem cycle_actions_ok {σ : Type} (rand : σ → Nat × σ) (st : σ) :
    ∀ a ∈ led_pattern_cycle rand st, actOk a = true := by
  intro a ha
  simp only [led_pattern_cycle, List.mem_append] at ha
  rcases ha with (h | h) | h
  · exact (by decide : ∀ a ∈ pattern_knight_rider, actOk a = true) a h
  · exact (by decide : ∀ a ∈ pattern_binary_counter, actOk a = true) a h
  · obtain ⟨k, hk, rfl⟩ := mem_random rand st a h
    simpa [actOk] using hk

/-- Claim C8: every led_set_brightness write reachable from one scheduler
cycle (hence every duty passed to the PWM binding after initialization)
has its LED index below LED_COUNT and its duty in [0, 1023], for every
generator state. -/
theorem C8_write_bounds :
    ∀ (σ : Type) (rand : σ → Nat × σ) (st : σ) (w : Nat × Int),
      w ∈ cycleWrites rand st →
      w.1 < LED_COUNT ∧ 0 ≤ w.2 ∧ w.2 ≤ 1023 := by
  intro σ rand st w hw
  rw [cycleWrites, List.mem_flatMap] at hw
  obtain ⟨a, ha, hwa⟩ := hw
  have hok := cycle_actions_ok rand st a ha
  cases a with
  | breathe i =>
    simp only [actOk, decide_eq_true_eq] at hok
    simp only [actionWrites, led_breathe, List.mem_map] at hwa
    obtain ⟨d, hd, hw'⟩ := hwa
    obtain ⟨hd0, hd1⟩ := breathe_duty_bounds d hd
    subst hw'
    exact ⟨hok, hd0, hd1⟩
  | setBright i d =>
    simp only [actOk, Bool.and_eq_true, decide_eq_true_eq] at hok
    simp only [actionWrites, List.mem_singleton] at hwa
    subst hwa
    obtain ⟨h1, h2⟩ := hok
    subst h2
    exact ⟨h1, by norm_num, by norm_num⟩

/-- Witness for C8 at a concrete generator, state and write. -/
theorem C8_write_bounds_witness :
    ((0, 0) : Nat × Int) ∈ cycleWrites wRand 0 ∧
    (((0, 0) : Nat × Int).1 < LED_COUNT ∧
     0 ≤ ((0, 0) : Nat × Int).2 ∧ ((0, 0) : Nat × Int).2 ≤ 1023) :=
  ⟨List.mem_flatMap.mpr ⟨PatAction.breathe 0, by decide, by decide⟩,
   C8_write_bounds Nat wRand 0 (0, 0)
     (List.mem_flatMap.mpr ⟨PatAction.breathe 0, by decide, by decide⟩)⟩

/-- Claim C9: led_init configures the shared timer and one channel per LED
descriptor; it aborts (none, modelling the abort of ESP_ERROR_CHECK)
exactly when the hardware rejects the timer configuration or one of the
channel configurations, and when it returns, every LED channel sits at
zero duty, shadow and committed, so no partially initialized state
continues. -/
theorem C9_init_abort_iff :
    ∀ (hw : HwResp) (s : PwmState),
      (led_init hw s = none ↔
        hw.timer_ok = false ∨ ∃ i, i < LED_COUNT ∧ hw.channel_ok i = false) ∧
      (∀ s2, led_init hw s = some s2 →
        ∀ i, i < LED_COUNT →
          s2.committed (channelOf i) = 0 ∧ s2.pending (channelOf i) = 0) := by
  intro hw s
  constructor
  · constructor
    · intro hnone
      by_cases ht : hw.timer_ok = true
      · right
        by_cases h0 : hw.channel_ok 0 = true
        · by_cases h1 : hw.channel_ok 1 = true
          · by_cases h2 : hw.channel_ok 2 = true
            · exfalso
              simp [led_init, ht, init_channels, h0, h1, h2, LED_COUNT, leds] at hnone
            · exact ⟨2, by decide, by simpa using h2⟩
          · exact ⟨1, by decide, by simpa using h1⟩
        · exact ⟨0, by decide, by simpa using h0⟩
      · left
        simpa using ht
    · intro h
      rcases h with ht | ⟨i, hi, hf⟩
      · simp [led_init, ht]
      · by_cases ht : hw.timer_ok = true
        · have hi3 : i < 3 := hi
          interval_cases i
          · simp [led_init, ht, init_channels, hf, LED_COUNT, leds]
          · by_cases h0 : hw.channel_ok 0 = true <;>
              simp [led_init, ht, init_channels, h0, hf, LED_COUNT, leds]
          · by_cases h0 : hw.channel_ok 0 = true <;>
              by_cases h1 : hw.channel_ok 1 = true <;>
              simp [led_init, ht, init_channels, h0, h1, hf, LED_COUNT, leds]
        · have ht' : hw.timer_ok = false := by simpa using ht
          simp [led_init, ht']
  · intro s2 hs2 i hi
    by_cases ht : hw.timer_ok = true
    · by_cases h0 : hw.channel_ok 0 = true
      · by_cases h1 : hw.channel_ok 1 = true
        · by_cases h2 : hw.channel_ok 2 = true
          · simp [led_init, ht, init_channels, h0, h1, h2, LED_COUNT, leds] at hs2
            have hi3 : i < 3 := hi
            interval_cases i <;>
              simp [← hs2, configure_channel, channelOf, leds, Function.update]
          · simp [led_init, ht, init_channels, h0, h1, h2, LED_COUNT, leds] at hs2
        · simp [led_init, ht, init_channels, h0, h1, LED_COUNT, leds] at hs2
      · simp [led_init, ht, init_channels, h0, LED_COUNT, leds] at hs2
    · have ht' : hw.timer_ok = false := by simpa using ht
      simp [led_init, ht'] at hs2

/-- Witness for C9 at the all-accepting hardware response and the zero
register file. -/
theorem C9_init_abort_iff_witness :
    led_init hwAllOk pwm0 = some pwmInit ∧
    (pwmInit.committed (channelOf 1) = 0 ∧ pwmInit.pending (channelOf 1) = 0) :=
  ⟨rfl, (C9_init_abort_iff hwAllOk pwm0).2 pwmInit rfl 1 (by decide)⟩

/-- Claim C10: led_set_brightness writes and commits a duty only on the
channel of the addressed LED: for any two distinct valid LED indices, the
committed and shadow duties of the other LED's channel are unchanged. -/
theorem C10_set_brightness_frame :
    ∀ (s : PwmState) (i j : Nat) (d : Int), i < LED_COUNT → j < LED_COUNT → j ≠ i →
      (led_set_brightness s i d).committed (channelOf j) = s.committed (channelOf j) ∧
      (led_set_brightness s i d).pending (channelOf j) = s.pending (channelOf j) := by
  intro s i j d hi hj hne
  have hi3 : i < 3 := hi
  have hj3 : j < 3 := hj
  interval_cases i <;> interval_cases j <;>
    first
      | exact absurd rfl hne
      | (constructor <;>
          simp [led_set_brightness, ledc_update_duty, ledc_set_duty, channelOf, leds,
            Function.update])

/-- Witness for C10 at a concrete state, indices and duty. -/
theorem C10_set_brightness_frame_witness :
    ((0 : Nat) < LED_COUNT ∧ (1 : Nat) < LED_COUNT ∧ (1 : Nat) ≠ 0) ∧
    ((led_set_brightness pwm0 0 5).committed (channelOf 1) = pwm0.committed (channelOf 1) ∧
     (led_set_brightness pwm0 0 5).pending (channelOf 1) = pwm0.pending (channelOf 1)) :=
  ⟨⟨by decide, by decide, by decide⟩,
   C10_set_brightness_frame pwm0 0 1 5 (by decide) (by decide) (by decide)⟩
